import Mathlib

/-!
# Verification of the go-ChiProxy observing forward proxy

Shallow embedding of `src/main.go` of hizuheka/go-ChiProxy: an HTTP
intercepting forward proxy whose core is an observing `RoundTrip`
(`customRoundTripper.RoundTrip`), a `director` URL rewriter, an inbound
logging `handler`, and an `ErrorHandler` error boundary.

HTTP bodies are single-read streams (`io.ReadCloser`); we model a stream as
its underlying bytes together with an optional mid-read error and two state
flags (`consumed`, set once `io.ReadAll` has drained the stream, and
`closed`, set by `Close`).  `io.NopCloser(bytes.NewBuffer(bs))` is a fresh,
error-free, unconsumed stream over `bs`.  Reading an already-drained buffer
yields no further bytes, which is how `bytes.Buffer` behaves after a full
read.

Dump rendering (`httputil.DumpRequestOut` / `DumpRequest` / `DumpResponse`)
is modelled as a snapshot of the message's headers plus the bytes read from
its body stream; the possibility of a dump error is injected through a
boolean parameter, since the dump failure conditions live inside the Go
standard library.  The network-executing transport (`http.Transport`) is a
parameter of the model: a function from a request to a response or an error.
-/

/-- Bytes of an HTTP message body. -/
abbrev Bytes := List Nat

/-- A single-read body stream (`io.ReadCloser`): its underlying data, an
optional error surfaced when the stream is read, and whether it has already
been drained and/or closed. -/
structure BodyStream where
  data : Bytes
  midErr : Option String
  consumed : Bool
  closed : Bool
deriving DecidableEq, Repr

/-- `io.NopCloser(bytes.NewBuffer(bs))`: a fresh error-free stream over `bs`. -/
def freshBody (bs : Bytes) : BodyStream :=
  { data := bs, midErr := none, consumed := false, closed := false }

/-- `io.ReadAll` on a stream: returns the full content (or the stream's read
error) together with the drained stream.  A stream that was already drained
yields no further bytes, as a fully-read `bytes.Buffer` does. -/
def readAll (b : BodyStream) : Except String Bytes × BodyStream :=
  if b.consumed then (Except.ok [], { b with consumed := true })
  else
    match b.midErr with
    | some e => (Except.error e, { b with consumed := true })
    | none => (Except.ok b.data, { b with consumed := true })

/-- `Close` on a stream. -/
def closeStream (b : BodyStream) : BodyStream := { b with closed := true }

/-- HTTP headers: an ordered mapping from (canonical) header name to values. -/
abbrev Header := List (String × List String)

/-- `http.Header.Del`: removes all entries for the (canonical) key. -/
def headerDel (h : Header) (k : String) : Header :=
  h.filter (fun p => p.1 ≠ k)

/-- Whether a header with the given (canonical) name is present. -/
def headerHas (h : Header) (k : String) : Bool :=
  h.any (fun p => p.1 = k)

/-- The forwarding-chain header that `httputil.ReverseProxy` injects. -/
def xForwardedFor : String := "X-Forwarded-For"

/-- An `http.Request`: method, the URL's scheme/host/path/query, the explicit
`Host` field, the header map, and the body stream (`nil` allowed). -/
structure Request where
  method : String
  urlScheme : String
  urlHost : String
  urlPath : String
  urlQuery : String
  host : String
  header : Header
  body : Option BodyStream
deriving DecidableEq, Repr

/-- An `http.Response`: status code, headers, body stream (`nil` allowed). -/
structure Response where
  status : Nat
  header : Header
  body : Option BodyStream
deriving DecidableEq, Repr

/-- The rendered output of `httputil.DumpRequestOut` / `DumpRequest` /
`DumpResponse` with `body = true`: the message's headers and the bytes read
from its body stream. -/
structure Dump where
  header : Header
  body : Bytes
deriving DecidableEq, Repr

/-- Render a dump of a message (`httputil.Dump*` with `body = true`): reads
the message's body stream fully and snapshots the headers.  `fails` injects
the dump-error path (the error is only logged by the callers). -/
def dumpMessage (fails : Bool) (h : Header) (b : Option BodyStream) : Option Dump :=
  if fails then none
  else
    some { header := h,
           body := match b with
                   | some s => ((readAll s).1).toOption.getD []
                   | none => [] }

/-- `http.StatusBadGateway`. -/
def statusBadGateway : Nat := 502

/-- `http.StatusInternalServerError`. -/
def statusInternalServerError : Nat := 500

/-- A direct reply written to the client with `http.Error`. -/
structure ClientReply where
  status : Nat
  message : String
deriving DecidableEq, Repr

/-- The `ErrorHandler` of the `httputil.ReverseProxy` (main.go:151-154): logs
the cause and writes exactly one `502 Bad Gateway` reply to the client. -/
def errorHandler (_e : String) : ClientReply :=
  { status := statusBadGateway, message := "プロキシ エラー" }

/-- main.go:31-32 — delete the `X-Forwarded-For` header that the
`ReverseProxy` auto-added, before anything else happens in `RoundTrip`. -/
def stripXFF (r : Request) : Request :=
  { r with header := headerDel r.header xForwardedFor }

/-- Everything observable about one execution of
`customRoundTripper.RoundTrip`: the returned `(resp, err)` pair, the request
actually handed to the underlying transport, the rendered dumps, and the
final state of the original request/response body streams. -/
structure RTTrace where
  resp : Option Response
  err : Option String
  sent : Option Request
  reqDump : Option Dump
  respDump : Option Dump
  reqStream : Option BodyStream
  respStream : Option BodyStream
deriving Repr

/-- main.go:85-101 — restore a fresh reader onto the response for the caller,
make a shallow copy with its own fresh reader, dump the copy (a dump error is
only logged), and return the response. -/
def roundTripRespond (dumpRespFails : Bool) (resp : Response) (respBody : Bytes)
    (origResp : Option BodyStream) (fwd : Request) (reqDump : Option Dump)
    (origReq : Option BodyStream) : RTTrace :=
  let outResp : Response := { resp with body := some (freshBody respBody) }
  let logResp : Response := { outResp with body := some (freshBody respBody) }
  let respDump := dumpMessage dumpRespFails logResp.header logResp.body
  { resp := some outResp, err := none, sent := some fwd, reqDump := reqDump,
    respDump := respDump, reqStream := origReq, respStream := origResp }

/-- main.go:45-83 — restore a fresh reader onto the request for forwarding,
clone the request for logging with its own fresh reader, dump the clone (a
dump error is only logged), invoke the underlying transport, and on success
drain the response body (a response read error returns the partially consumed
response together with the error). -/
def roundTripSend (dumpReqFails dumpRespFails : Bool)
    (proxied : Request → Except String Response)
    (req1 : Request) (reqBody : Bytes) (origReq : Option BodyStream) : RTTrace :=
  let fwd : Request := { req1 with body := some (freshBody reqBody) }
  let logReq : Request := { fwd with body := some (freshBody reqBody) }
  let reqDump := dumpMessage dumpReqFails logReq.header logReq.body
  match proxied fwd with
  | Except.error e =>
      { resp := none, err := some e, sent := some fwd, reqDump := reqDump,
        respDump := none, reqStream := origReq, respStream := none }
  | Except.ok resp =>
      match resp.body with
      | some rb =>
          match readAll rb with
          | (Except.error re, rbq) =>
              { resp := some { resp with body := some rbq }, err := some re,
                sent := some fwd, reqDump := reqDump, respDump := none,
                reqStream := origReq, respStream := some rbq }
          | (Except.ok respBody, rbq) =>
              roundTripRespond dumpRespFails resp respBody (some rbq) fwd reqDump origReq
      | none =>
          roundTripRespond dumpRespFails resp [] none fwd reqDump origReq

/-- `customRoundTripper.RoundTrip` (main.go:28-105).  Deletes the
`X-Forwarded-For` header, drains the request body (a read error aborts with
that error before anything is sent), then proceeds with forwarding and
logging via `roundTripSend`. -/
def roundTrip (dumpReqFails dumpRespFails : Bool)
    (proxied : Request → Except String Response) (req0 : Request) : RTTrace :=
  match (stripXFF req0).body with
  | some b =>
      match readAll b with
      | (Except.error e, bq) =>
          { resp := none, err := some e, sent := none, reqDump := none,
            respDump := none, reqStream := some bq, respStream := none }
      | (Except.ok bs, bq) =>
          roundTripSend dumpReqFails dumpRespFails proxied (stripXFF req0) bs (some bq)
  | none =>
      roundTripSend dumpReqFails dumpRespFails proxied (stripXFF req0) [] none

/-- The fixed upstream target parsed at startup (`url.Parse(*targetURL)`). -/
structure Target where
  scheme : String
  host : String
  path : String
deriving DecidableEq, Repr

/-- The `director` of the `ReverseProxy` (main.go:141-146): rewrites the
URL's scheme, host and path to the target's and sets the explicit `Host`
field to the target's host. -/
def director (target : Target) (req : Request) : Request :=
  { req with urlScheme := target.scheme, urlHost := target.host,
             urlPath := target.path, host := target.host }

/-- Everything observable about one execution of the inbound `handler`
(main.go:158-185): a direct error reply (if any), the request forwarded into
the proxy pipeline (if reached), the rendered dump, and the final state of
the client's original body stream. -/
structure HandlerTrace where
  reply : Option ClientReply
  forwarded : Option Request
  dump : Option Dump
  clientStream : Option BodyStream
deriving Repr

/-- main.go:171-184 — clone the request for logging with a fresh body, dump
the clone (a dump error is only logged), restore a fresh body onto the
request, and hand it to `proxy.ServeHTTP`. -/
def handlerForward (dumpFails : Bool) (r : Request) (bs : Bytes)
    (orig : Option BodyStream) : HandlerTrace :=
  let logReq : Request := { r with body := some (freshBody bs) }
  let dump := dumpMessage dumpFails logReq.header logReq.body
  { reply := none,
    forwarded := some { r with body := some (freshBody bs) },
    dump := dump, clientStream := orig }

/-- The inbound `handler` (main.go:158-185).  Drains the client body; on a
read error replies `500 Server Error` and never enters the pipeline (note the
stream is only closed on the successful read path, main.go:168); otherwise
closes the drained stream, logs, and forwards with a restored body. -/
def handler (dumpFails : Bool) (r : Request) : HandlerTrace :=
  match r.body with
  | some b =>
      match readAll b with
      | (Except.error _, bq) =>
          { reply := some { status := statusInternalServerError, message := "Server Error" },
            forwarded := none, dump := none, clientStream := some bq }
      | (Except.ok bs, bq) =>
          handlerForward dumpFails r bs (some (closeStream bq))
  | none => handlerForward dumpFails r [] none

/-- The names of the only command-line flags the program defines
(main.go:109-110): `-target` and `-listen`. -/
def definedFlagNames : List String := ["target", "listen"]

/-- main.go:129-131 — the `TLSClientConfig` of the base transport hardcodes
`InsecureSkipVerify: true`; no flag is consulted. -/
def insecureSkipVerify : Bool := true

/-! ## Concrete sample inputs used by witnesses and counterexamples -/

/-- A sample inbound request carrying the `X-Forwarded-For` header the
`ReverseProxy` injects and a non-empty body. -/
def sampleReq : Request :=
  { method := "POST", urlScheme := "https", urlHost := "backend.example",
    urlPath := "/svc", urlQuery := "v=1", host := "backend.example",
    header := [(xForwardedFor, ["10.0.0.1"]), ("Content-Type", ["text/xml"])],
    body := some (freshBody [1, 2, 3]) }

/-- A sample upstream response with a non-empty readable body. -/
def sampleResp : Response :=
  { status := 200, header := [("Content-Type", ["text/xml"])],
    body := some (freshBody [4, 5, 6]) }

/-- A transport that always succeeds with `sampleResp`. -/
def okTransport : Request → Except String Response :=
  fun _ => Except.ok sampleResp

/-- A sample fixed upstream target. -/
def sampleTarget : Target :=
  { scheme := "https", host := "backend.example", path := "/svc" }

/-! ## Claims -/

/-- Claim C7: for every inbound request, the director replaces exactly the
URL scheme, URL host and URL path with the fixed Target's values and sets the
explicit Host field to the Target's host, while leaving the method, the query
string, all other headers and the body unchanged; it is a total function. -/
theorem C7_director_rewrites_only_addressing (t : Target) (r : Request) :
    (director t r).urlScheme = t.scheme ∧
    (director t r).urlHost = t.host ∧
    (director t r).urlPath = t.path ∧
    (director t r).host = t.host ∧
    (director t r).method = r.method ∧
    (director t r).urlQuery = r.urlQuery ∧
    (director t r).header = r.header ∧
    (director t r).body = r.body := by
  simp [director]

/-- Claim C9 (evaluation of the code): the program defines only the `target`
and `listen` flags — no TLS-verification flag exists — and the base
transport's `InsecureSkipVerify` is the constant `true`, so certificate
verification toward the upstream is unconditionally skipped. -/
theorem C9_no_tls_flag_and_verification_always_skipped :
    definedFlagNames = ["target", "listen"] ∧ insecureSkipVerify = true := by
  constructor <;> rfl

/-- Claim C2: when reading the request body stream fails mid-read, RoundTrip
returns that read error with no response, nothing is handed to the underlying
transport, and no dump is rendered: the exchange is aborted rather than a
truncated body being forwarded. -/
theorem C2_body_read_error_aborts_exchange (req : Request) (b : BodyStream)
    (e : String) (hb : req.body = some b) (hc : b.consumed = false)
    (he : b.midErr = some e)
    (d1 d2 : Bool) (p : Request → Except String Response) :
    (roundTrip d1 d2 p req).resp = none ∧
    (roundTrip d1 d2 p req).err = some e ∧
    (roundTrip d1 d2 p req).sent = none ∧
    (roundTrip d1 d2 p req).reqDump = none := by
  simp [roundTrip, stripXFF, hb, readAll, hc, he]

/-- Witness for C2 at a concrete erroring stream. -/
theorem C2_witness :
    (roundTrip false false okTransport
      { sampleReq with
        body := some { data := [1], midErr := some "unexpected EOF",
                       consumed := false, closed := false } }).resp = none ∧
    (roundTrip false false okTransport
      { sampleReq with
        body := some { data := [1], midErr := some "unexpected EOF",
                       consumed := false, closed := false } }).err =
      some "unexpected EOF" ∧
    (roundTrip false false okTransport
      { sampleReq with
        body := some { data := [1], midErr := some "unexpected EOF",
                       consumed := false, closed := false } }).sent = none ∧
    (roundTrip false false okTransport
      { sampleReq with
        body := some { data := [1], midErr := some "unexpected EOF",
                       consumed := false, closed := false } }).reqDump = none :=
  C2_body_read_error_aborts_exchange _ _ _ rfl rfl rfl false false okTransport

/-- Claim C5: when the initial read of the inbound client body fails, the
handler replies 500 to the client and the pipeline is not entered: no request
is forwarded, so nothing is sent upstream for that exchange. -/
theorem C5_unreadable_client_body_replies_500 (r : Request) (b : BodyStream)
    (e : String) (hb : r.body = some b) (hc : b.consumed = false)
    (he : b.midErr = some e) (d : Bool) :
    (handler d r).reply =
      some { status := statusInternalServerError, message := "Server Error" } ∧
    (handler d r).forwarded = none ∧
    statusInternalServerError = 500 := by
  simp [handler, hb, readAll, hc, he, statusInternalServerError]

/-- Witness for C5 at a concrete erroring client stream. -/
theorem C5_witness :
    (handler false
      { sampleReq with
        body := some { data := [7], midErr := some "client reset",
                       consumed := false, closed := false } }).reply =
      some { status := statusInternalServerError, message := "Server Error" } ∧
    (handler false
      { sampleReq with
        body := some { data := [7], midErr := some "client reset",
                       consumed := false, closed := false } }).forwarded = none ∧
    statusInternalServerError = 500 :=
  C5_unreadable_client_body_replies_500 _ _ "client reset" rfl rfl rfl false

/-! ## Structural lemmas about the observing RoundTrip -/

/-- On every path through `roundTripSend`, the request handed to the
underlying transport is the body-restored request. -/
theorem roundTripSend_sent (d1 d2 : Bool) (p : Request → Except String Response)
    (req1 : Request) (bs : Bytes) (orig : Option BodyStream) :
    (roundTripSend d1 d2 p req1 bs orig).sent =
      some { req1 with body := some (freshBody bs) } := by
  cases hp : p { req1 with body := some (freshBody bs) } with
  | error e => simp [roundTripSend, hp]
  | ok resp =>
      cases hrb : resp.body with
      | none => simp [roundTripSend, hp, hrb, roundTripRespond]
      | some rb =>
          rcases hra : readAll rb with ⟨r, rbq⟩
          cases r <;> simp [roundTripSend, hp, hrb, hra, roundTripRespond]

/-- Evaluation of `readAll` on a fresh stream: the full content comes back
and the stream is left drained. -/
theorem readAll_freshBody (bs : Bytes) :
    readAll (freshBody bs) =
      (Except.ok bs, { data := bs, midErr := none, consumed := true, closed := false }) := by
  simp [readAll, freshBody]

/-- Evaluation of `dumpMessage` on a fresh stream: unless the dump step
fails, the dump holds the headers and the full content. -/
theorem dumpMessage_freshBody (fails : Bool) (h : Header) (bs : Bytes) :
    dumpMessage fails h (some (freshBody bs)) =
      if fails then none else some { header := h, body := bs } := by
  simp [dumpMessage, readAll, freshBody, Except.toOption]

/-- On every path through `roundTripSend`, the rendered outbound dump (when
the dump step succeeds) snapshots the forwarded request's headers and the
full buffered body bytes. -/
theorem roundTripSend_reqDump (d1 d2 : Bool) (p : Request → Except String Response)
    (req1 : Request) (bs : Bytes) (orig : Option BodyStream) :
    (roundTripSend d1 d2 p req1 bs orig).reqDump =
      if d1 then none else some { header := req1.header, body := bs } := by
  cases hp : p { req1 with body := some (freshBody bs) } with
  | error e => simp [roundTripSend, hp, dumpMessage_freshBody]
  | ok resp =>
      cases hrb : resp.body with
      | none => simp [roundTripSend, hp, hrb, roundTripRespond, dumpMessage_freshBody]
      | some rb =>
          rcases hra : readAll rb with ⟨r, rbq⟩
          cases r <;>
            simp [roundTripSend, hp, hrb, hra, roundTripRespond, dumpMessage_freshBody]

/-- On every path through `roundTripSend`, the original request stream's
final state is whatever it was when `roundTripSend` was entered: the send
phase never touches (in particular never closes) it. -/
theorem roundTripSend_reqStream (d1 d2 : Bool) (p : Request → Except String Response)
    (req1 : Request) (bs : Bytes) (orig : Option BodyStream) :
    (roundTripSend d1 d2 p req1 bs orig).reqStream = orig := by
  cases hp : p { req1 with body := some (freshBody bs) } with
  | error e => simp [roundTripSend, hp]
  | ok resp =>
      cases hrb : resp.body with
      | none => simp [roundTripSend, hp, hrb, roundTripRespond]
      | some rb =>
          rcases hra : readAll rb with ⟨r, rbq⟩
          cases r <;> simp [roundTripSend, hp, hrb, hra, roundTripRespond]

/-- When the underlying transport succeeds and the response body is a fresh
readable stream over `rs`, `roundTripSend` returns that response with a
fresh stream over exactly `rs` restored, and no error. -/
theorem roundTripSend_resp_ok (d1 d2 : Bool) (p : Request → Except String Response)
    (req1 : Request) (bs : Bytes) (orig : Option BodyStream)
    (resp : Response) (rs : Bytes)
    (hp : p { req1 with body := some (freshBody bs) } = Except.ok resp)
    (hrb : resp.body = some (freshBody rs)) :
    (roundTripSend d1 d2 p req1 bs orig).resp =
      some { resp with body := some (freshBody rs) } ∧
    (roundTripSend d1 d2 p req1 bs orig).err = none := by
  constructor <;>
    simp [roundTripSend, hp, hrb, readAll_freshBody, roundTripRespond]

/-- The drained stream returned by `readAll` is the input stream with its
`consumed` flag set; in particular `readAll` never closes the stream. -/
theorem readAll_snd (b : BodyStream) :
    (readAll b).2 = { b with consumed := true } := by
  by_cases hc : b.consumed <;> cases hm : b.midErr <;> simp [readAll, hc, hm]

/-- `roundTripSend` returns the same `(resp, err)` pair and sends the same
request whether or not either dump-rendering step fails. -/
theorem roundTripSend_dump_independent (d1 d2 : Bool)
    (p : Request → Except String Response) (req1 : Request) (bs : Bytes)
    (orig : Option BodyStream) :
    (roundTripSend d1 d2 p req1 bs orig).resp =
      (roundTripSend false false p req1 bs orig).resp ∧
    (roundTripSend d1 d2 p req1 bs orig).err =
      (roundTripSend false false p req1 bs orig).err ∧
    (roundTripSend d1 d2 p req1 bs orig).sent =
      (roundTripSend false false p req1 bs orig).sent := by
  cases hp : p { req1 with body := some (freshBody bs) } with
  | error e => simp [roundTripSend, hp]
  | ok resp =>
      cases hrb : resp.body with
      | none => simp [roundTripSend, hp, hrb, roundTripRespond]
      | some rb =>
          rcases hra : readAll rb with ⟨r, rbq⟩
          cases r <;> simp [roundTripSend, hp, hrb, hra, roundTripRespond]

/-- When the request body is readable (its stream, if any, carries no read
error), `RoundTrip` reaches the send phase: it equals `roundTripSend` on the
header-stripped request for some buffered bytes and original-stream state. -/
theorem roundTrip_readable (d1 d2 : Bool) (p : Request → Except String Response)
    (req : Request) (hb : ∀ b, req.body = some b → b.midErr = none) :
    ∃ bs orig, roundTrip d1 d2 p req =
      roundTripSend d1 d2 p (stripXFF req) bs orig := by
  cases hsb : (stripXFF req).body with
  | none => exact ⟨[], none, by simp [roundTrip, hsb]⟩
  | some b =>
      have hm : b.midErr = none := hb b hsb
      by_cases hc : b.consumed
      · exact ⟨[], some { b with consumed := true },
          by simp [roundTrip, hsb, readAll, hc]⟩
      · exact ⟨b.data, some { b with consumed := true },
          by simp [roundTrip, hsb, readAll, hc, hm]⟩

/-- Claim C3: a failure of the dump-rendering step (`DumpRequestOut` or
`DumpResponse` returning an error) never aborts the exchange — the request
is still sent to the underlying transport and the returned `(resp, err)`
pair, response body included, is identical to what a successful dump would
have produced. -/
theorem C3_dump_failure_never_aborts_exchange (d1 d2 : Bool)
    (p : Request → Except String Response) (req : Request) :
    (roundTrip d1 d2 p req).resp = (roundTrip false false p req).resp ∧
    (roundTrip d1 d2 p req).err = (roundTrip false false p req).err ∧
    (roundTrip d1 d2 p req).sent = (roundTrip false false p req).sent := by
  cases hsb : (stripXFF req).body with
  | none =>
      simpa [roundTrip, hsb] using
        roundTripSend_dump_independent d1 d2 p (stripXFF req) [] none
  | some b =>
      rcases hra : readAll b with ⟨r, bq⟩
      cases r with
      | error e => simp [roundTrip, hsb, hra]
      | ok bs =>
          simpa [roundTrip, hsb, hra] using
            roundTripSend_dump_independent d1 d2 p (stripXFF req) bs (some bq)

/-- The transport-error branch of `roundTripSend`: the error comes back
unchanged and no response is synthesized. -/
theorem roundTripSend_transport_error (d1 d2 : Bool) (e : String)
    (req1 : Request) (bs : Bytes) (orig : Option BodyStream) :
    (roundTripSend d1 d2 (fun _ => Except.error e) req1 bs orig).resp = none ∧
    (roundTripSend d1 d2 (fun _ => Except.error e) req1 bs orig).err = some e := by
  constructor <;> simp [roundTripSend]

/-- Claim C4: when the underlying transport fails, the observing RoundTrip
returns a nil response together with the original error, and the error
boundary turns any such error into a single 502 Bad Gateway reply. -/
theorem C4_transport_error_propagated_and_502 (req : Request)
    (hb : ∀ b, req.body = some b → b.midErr = none) (e : String) (d1 d2 : Bool) :
    (roundTrip d1 d2 (fun _ => Except.error e) req).resp = none ∧
    (roundTrip d1 d2 (fun _ => Except.error e) req).err = some e ∧
    (errorHandler e).status = statusBadGateway ∧ statusBadGateway = 502 := by
  obtain ⟨bs, orig, hrt⟩ := roundTrip_readable d1 d2 (fun _ => Except.error e) req hb
  rw [hrt]
  obtain ⟨h1, h2⟩ :=
    roundTripSend_transport_error d1 d2 e (stripXFF req) bs orig
  exact ⟨h1, h2, rfl, rfl⟩

/-- Witness for C4 at a concrete request and connection error. -/
theorem C4_witness :
    (roundTrip false false (fun _ => Except.error "connection refused")
      sampleReq).resp = none ∧
    (roundTrip false false (fun _ => Except.error "connection refused")
      sampleReq).err = some "connection refused" ∧
    (errorHandler "connection refused").status = statusBadGateway ∧
    statusBadGateway = 502 :=
  C4_transport_error_propagated_and_502 sampleReq
    (by intro b h
        simp [sampleReq, freshBody] at h
        rw [← h])
    "connection refused" false false

/-- `Header.Del` really removes every entry for the key. -/
theorem headerHas_headerDel (h : Header) (k : String) :
    headerHas (headerDel h k) k = false := by
  induction h with
  | nil => rfl
  | cons q t ih =>
      by_cases hq : q.1 = k <;> simp [headerDel, headerHas, hq] at ih ⊢

/-- Whenever `RoundTrip` hands a request to the underlying transport, that
request's headers are the inbound headers with `X-Forwarded-For` deleted. -/
theorem roundTrip_sent_header (d1 d2 : Bool) (p : Request → Except String Response)
    (req : Request) (s : Request)
    (hs : (roundTrip d1 d2 p req).sent = some s) :
    s.header = headerDel req.header xForwardedFor := by
  cases hsb : (stripXFF req).body with
  | none =>
      rw [show roundTrip d1 d2 p req =
            roundTripSend d1 d2 p (stripXFF req) [] none by
          simp [roundTrip, hsb], roundTripSend_sent] at hs
      injection hs with hs
      rw [← hs]
      rfl
  | some b =>
      rcases hra : readAll b with ⟨r, bq⟩
      cases r with
      | error e => simp [roundTrip, hsb, hra] at hs
      | ok bs =>
          rw [show roundTrip d1 d2 p req =
                roundTripSend d1 d2 p (stripXFF req) bs (some bq) by
              simp [roundTrip, hsb, hra], roundTripSend_sent] at hs
          injection hs with hs
          rw [← hs]
          rfl

/-- Whenever `RoundTrip` renders an outbound dump, the dumped headers are the
inbound headers with `X-Forwarded-For` deleted. -/
theorem roundTrip_reqDump_header (d1 d2 : Bool) (p : Request → Except String Response)
    (req : Request) (d : Dump)
    (hd : (roundTrip d1 d2 p req).reqDump = some d) :
    d.header = headerDel req.header xForwardedFor := by
  cases hsb : (stripXFF req).body with
  | none =>
      rw [show roundTrip d1 d2 p req =
            roundTripSend d1 d2 p (stripXFF req) [] none by
          simp [roundTrip, hsb], roundTripSend_reqDump] at hd
      cases hd1 : d1 <;> rw [hd1] at hd <;> simp at hd
      rw [← hd]
      rfl
  | some b =>
      rcases hra : readAll b with ⟨r, bq⟩
      cases r with
      | error e => simp [roundTrip, hsb, hra] at hd
      | ok bs =>
          rw [show roundTrip d1 d2 p req =
                roundTripSend d1 d2 p (stripXFF req) bs (some bq) by
              simp [roundTrip, hsb, hra], roundTripSend_reqDump] at hd
          cases hd1 : d1 <;> rw [hd1] at hd <;> simp at hd
          rw [← hd]
          rfl

/-- Claim C6: the `X-Forwarded-For` header injected by the routing layer is
deleted before the request is handed to the underlying transport, so it is
never present in the request sent upstream, nor in the outbound dump. -/
theorem C6_xff_never_reaches_upstream (req : Request)
    (p : Request → Except String Response) (d1 d2 : Bool) :
    (∀ s, (roundTrip d1 d2 p req).sent = some s →
      headerHas s.header xForwardedFor = false) ∧
    (∀ d, (roundTrip d1 d2 p req).reqDump = some d →
      headerHas d.header xForwardedFor = false) := by
  constructor
  · intro s hs
    rw [roundTrip_sent_header d1 d2 p req s hs]
    exact headerHas_headerDel req.header xForwardedFor
  · intro d hd
    rw [roundTrip_reqDump_header d1 d2 p req d hd]
    exact headerHas_headerDel req.header xForwardedFor

/-- Witness for C6: on a concrete request that carries `X-Forwarded-For`,
both the request actually sent and the rendered dump lack the header. -/
theorem C6_witness :
    headerHas ({ sampleReq with
        header := headerDel sampleReq.header xForwardedFor,
        body := some (freshBody [1, 2, 3]) } : Request).header
      xForwardedFor = false ∧
    headerHas (Dump.mk (headerDel sampleReq.header xForwardedFor) [1, 2, 3]).header
      xForwardedFor = false :=
  ⟨(C6_xff_never_reaches_upstream sampleReq okTransport false false).1 _
      (by rfl),
   (C6_xff_never_reaches_upstream sampleReq okTransport false false).2 _
      (by rfl)⟩

/-- Claim C1: the body bytes handed to the underlying transport are exactly
the bytes the client sent, and on a successful exchange the response handed
back carries exactly the bytes the upstream returned — drain-and-restore
preserves content even though the dump consumes a second, independent reader
over the same buffer. -/
theorem C1_body_bytes_preserved (req : Request) (bs : Bytes) (_hne : bs ≠ [])
    (hb : req.body = some (freshBody bs))
    (p : Request → Except String Response) (d1 d2 : Bool) :
    (roundTrip d1 d2 p req).sent =
      some { stripXFF req with body := some (freshBody bs) } ∧
    (∀ s resp rs, (roundTrip d1 d2 p req).sent = some s →
      p s = Except.ok resp → resp.body = some (freshBody rs) →
      (roundTrip d1 d2 p req).resp =
        some { resp with body := some (freshBody rs) }) := by
  have hsb : (stripXFF req).body = some (freshBody bs) := hb
  have hrt : roundTrip d1 d2 p req =
      roundTripSend d1 d2 p (stripXFF req) bs
        (some { data := bs, midErr := none, consumed := true, closed := false }) := by
    simp [roundTrip, hsb, readAll_freshBody]
  constructor
  · rw [hrt, roundTripSend_sent]
  · intro s resp rs hs hp hrb
    rw [hrt, roundTripSend_sent] at hs
    injection hs with hs
    rw [hrt]
    exact (roundTripSend_resp_ok d1 d2 p (stripXFF req) bs _ resp rs
      (hs ▸ hp) hrb).1

/-- Witness for C1 on a concrete request/response pair with non-empty
bodies, under a transport returning `sampleResp`. -/
theorem C1_witness :
    (roundTrip false false okTransport sampleReq).sent =
      some { stripXFF sampleReq with body := some (freshBody [1, 2, 3]) } ∧
    (∀ s resp rs, (roundTrip false false okTransport sampleReq).sent = some s →
      okTransport s = Except.ok resp → resp.body = some (freshBody rs) →
      (roundTrip false false okTransport sampleReq).resp =
        some { resp with body := some (freshBody rs) }) :=
  C1_body_bytes_preserved sampleReq [1, 2, 3] (by simp) rfl okTransport false false

/-- The response-body read-error branch of `roundTripSend`: the partially
consumed response object comes back together with the read error
(main.go:77-82). -/
theorem roundTripSend_resp_read_error (d1 d2 : Bool)
    (p : Request → Except String Response) (req1 : Request) (bs : Bytes)
    (orig : Option BodyStream) (resp : Response) (rb : Bytes) (e : String)
    (hp : p { req1 with body := some (freshBody bs) } = Except.ok resp)
    (hrb : resp.body = some (BodyStream.mk rb (some e) false false)) :
    (roundTripSend d1 d2 p req1 bs orig).resp =
      some { resp with body := some (BodyStream.mk rb (some e) true false) } ∧
    (roundTripSend d1 d2 p req1 bs orig).err = some e := by
  have hra : readAll (BodyStream.mk rb (some e) false false) =
      (Except.error e, BodyStream.mk rb (some e) true false) := by
    simp [readAll]
  constructor <;> simp [roundTripSend, hp, hrb, hra]

/-- Claim C10: if the transport succeeds but reading the upstream response
body fails, RoundTrip returns the partially consumed response object together
with a non-nil error, and the error boundary therefore replies 502 — the
upstream's status and body are not passed through. -/
theorem C10_resp_read_error_yields_resp_and_502 (req : Request)
    (hb : ∀ b, req.body = some b → b.midErr = none)
    (resp : Response) (rb : Bytes) (e : String)
    (hrb : resp.body = some (BodyStream.mk rb (some e) false false))
    (d1 d2 : Bool) :
    (roundTrip d1 d2 (fun _ => Except.ok resp) req).resp =
      some { resp with body := some (BodyStream.mk rb (some e) true false) } ∧
    (roundTrip d1 d2 (fun _ => Except.ok resp) req).err = some e ∧
    (errorHandler e).status = statusBadGateway ∧ statusBadGateway = 502 := by
  obtain ⟨bs, orig, hrt⟩ := roundTrip_readable d1 d2 (fun _ => Except.ok resp) req hb
  rw [hrt]
  obtain ⟨h1, h2⟩ := roundTripSend_resp_read_error d1 d2 (fun _ => Except.ok resp)
    (stripXFF req) bs orig resp rb e rfl hrb
  exact ⟨h1, h2, rfl, rfl⟩

/-- An upstream response whose body stream errors mid-read, used as a
concrete input. -/
def erroringResp : Response :=
  { status := 200, header := [],
    body := some (BodyStream.mk [9] (some "unexpected EOF") false false) }

/-- Witness for C10 at a concrete request and `erroringResp`. -/
theorem C10_witness :
    (roundTrip false false (fun _ => Except.ok erroringResp) sampleReq).resp =
      some { erroringResp with
             body := some (BodyStream.mk [9] (some "unexpected EOF") true false) } ∧
    (roundTrip false false (fun _ => Except.ok erroringResp) sampleReq).err =
      some "unexpected EOF" ∧
    (errorHandler "unexpected EOF").status = statusBadGateway ∧
    statusBadGateway = 502 :=
  C10_resp_read_error_yields_resp_and_502 sampleReq
    (by intro b h
        simp [sampleReq, freshBody] at h
        rw [← h])
    erroringResp [9] "unexpected EOF" rfl false false

/-- Counterexample to claim C8 as stated: running the observing RoundTrip on
a concrete request with a non-nil body (under a succeeding transport whose
response also has a non-nil body) leaves both original streams drained
(`consumed = true`) yet unclosed (`closed = false`) when the operation
returns — the drain-and-restore in `RoundTrip` (main.go:36-45 and 75-85)
never calls `Close` on the stream it drained. -/
theorem C8_counterexample :
    ((roundTrip false false okTransport sampleReq).reqStream.map
      (fun b => (b.consumed, b.closed))) = some (true, false) ∧
    ((roundTrip false false okTransport sampleReq).respStream.map
      (fun b => (b.consumed, b.closed))) = some (true, false) := by
  constructor <;> rfl

/-- Whenever `roundTripSend` ends with a final response-stream state, that
stream is the body of the response the transport produced, drained by
`io.ReadAll` but otherwise untouched — in particular never closed. -/
theorem roundTripSend_respStream (d1 d2 : Bool)
    (p : Request → Except String Response) (req1 : Request) (bs : Bytes)
    (orig : Option BodyStream) (b3 : BodyStream)
    (hrs : (roundTripSend d1 d2 p req1 bs orig).respStream = some b3) :
    ∃ resp rb, p { req1 with body := some (freshBody bs) } = Except.ok resp ∧
      resp.body = some rb ∧ b3 = { rb with consumed := true } := by
  cases hp : p { req1 with body := some (freshBody bs) } with
  | error e => simp [roundTripSend, hp] at hrs
  | ok resp =>
      cases hrb : resp.body with
      | none => simp [roundTripSend, hp, hrb, roundTripRespond] at hrs
      | some rb =>
          rcases hra : readAll rb with ⟨r, rbq⟩
          have hbq : rbq = { rb with consumed := true } := by
            have h2 := readAll_snd rb
            rw [hra] at h2
            exact h2
          cases r with
          | error e =>
              simp [roundTripSend, hp, hrb, hra] at hrs
              exact ⟨resp, rb, rfl, hrb, by rw [← hrs, hbq]⟩
          | ok bs2 =>
              simp [roundTripSend, hp, hrb, hra, roundTripRespond] at hrs
              exact ⟨resp, rb, rfl, hrb, by rw [← hrs, hbq]⟩

/-- Claim C8 as amended: the inbound handler closes the client stream it
drained before the operation returns (main.go:162-168, successful read
path), but the observing RoundTrip drains the request body stream and the
response body stream without ever closing either — it only replaces them
with fresh readers. -/
theorem C8_amended_only_handler_closes (r : Request) (b : BodyStream)
    (hb : r.body = some b) (hc : b.consumed = false) (he : b.midErr = none)
    (d : Bool) :
    (handler d r).clientStream =
      some { b with consumed := true, closed := true } ∧
    (∀ (req : Request) (b2 b3 : BodyStream) (d1 d2 : Bool)
        (p : Request → Except String Response),
        req.body = some b2 → b2.closed = false →
        (roundTrip d1 d2 p req).reqStream = some b3 →
        b3.consumed = true ∧ b3.closed = false) ∧
    (∀ (req : Request) (d1 d2 : Bool) (p : Request → Except String Response),
        (∀ s resp br, p s = Except.ok resp → resp.body = some br →
          br.closed = false) →
        ∀ b3, (roundTrip d1 d2 p req).respStream = some b3 →
        b3.consumed = true ∧ b3.closed = false) := by
  refine ⟨?_, ?_, ?_⟩
  · simp [handler, hb, readAll, hc, he, handlerForward, closeStream]
  · intro req b2 b3 d1 d2 p hb2 hcl hrs
    have hsb : (stripXFF req).body = some b2 := hb2
    rcases hra : readAll b2 with ⟨r2, bq⟩
    have hbq : bq = { b2 with consumed := true } := by
      have h2 := readAll_snd b2
      rw [hra] at h2
      exact h2
    cases r2 with
    | error e =>
        simp [roundTrip, hsb, hra] at hrs
        rw [← hrs, hbq, hcl]
        exact ⟨rfl, rfl⟩
    | ok bs =>
        rw [show roundTrip d1 d2 p req =
              roundTripSend d1 d2 p (stripXFF req) bs (some bq) by
            simp [roundTrip, hsb, hra], roundTripSend_reqStream] at hrs
        injection hrs with hrs
        rw [← hrs, hbq, hcl]
        exact ⟨rfl, rfl⟩
  · intro req d1 d2 p hresp b3 hrs
    cases hsb : (stripXFF req).body with
    | none =>
        rw [show roundTrip d1 d2 p req =
              roundTripSend d1 d2 p (stripXFF req) [] none by
            simp [roundTrip, hsb]] at hrs
        obtain ⟨resp, rb, hpc, hrb, hb3⟩ :=
          roundTripSend_respStream d1 d2 p (stripXFF req) [] none b3 hrs
        have hcl := hresp _ resp rb hpc hrb
        rw [hb3, hcl]
        exact ⟨rfl, rfl⟩
    | some b0 =>
        rcases hra : readAll b0 with ⟨r2, bq⟩
        cases r2 with
        | error e => simp [roundTrip, hsb, hra] at hrs
        | ok bs =>
            rw [show roundTrip d1 d2 p req =
                  roundTripSend d1 d2 p (stripXFF req) bs (some bq) by
                simp [roundTrip, hsb, hra]] at hrs
            obtain ⟨resp, rb, hpc, hrb, hb3⟩ :=
              roundTripSend_respStream d1 d2 p (stripXFF req) bs (some bq) b3 hrs
            have hcl := hresp _ resp rb hpc hrb
            rw [hb3, hcl]
            exact ⟨rfl, rfl⟩

/-- Witness for the amended C8 at a concrete client request. -/
theorem C8_amended_witness :
    (handler false sampleReq).clientStream =
      some { freshBody [1, 2, 3] with consumed := true, closed := true } ∧
    (∀ (req : Request) (b2 b3 : BodyStream) (d1 d2 : Bool)
        (p : Request → Except String Response),
        req.body = some b2 → b2.closed = false →
        (roundTrip d1 d2 p req).reqStream = some b3 →
        b3.consumed = true ∧ b3.closed = false) ∧
    (∀ (req : Request) (d1 d2 : Bool) (p : Request → Except String Response),
        (∀ s resp br, p s = Except.ok resp → resp.body = some br →
          br.closed = false) →
        ∀ b3, (roundTrip d1 d2 p req).respStream = some b3 →
        b3.consumed = true ∧ b3.closed = false) :=
  C8_amended_only_handler_closes sampleReq (freshBody [1, 2, 3]) rfl rfl rfl false
